import Mathlib

/-!
Shallow embedding of the wake/sleep speech-transcription state machine in
`src/hooks/useSpeechRecognition.ts`, together with theorems settling the
specification claims about it.

JavaScript string operations (`trim`, `toLowerCase`, `includes`, `indexOf`,
`substring`, `.length`) are modelled over `String` via its character list.
-/

namespace SpeechToText

/-- JS `String.prototype.trim`: drop leading and trailing whitespace. -/
def trimChars (cs : List Char) : List Char :=
  ((cs.dropWhile Char.isWhitespace).reverse.dropWhile Char.isWhitespace).reverse

/-- JS `trim` on `String`. -/
def strTrim (s : String) : String := String.mk (trimChars s.data)

/-- JS `toLowerCase` (per-character, length preserving). -/
def strLower (s : String) : String := String.mk (s.data.map Char.toLower)

/-- JS `.length` (character count; code units and characters agree on the
inputs considered here). -/
def strLen (s : String) : Nat := s.data.length

/-- Does `needle` occur as an initial segment of `hay`? -/
def headMatch : List Char → List Char → Bool
  | [], _ => true
  | _ :: _, [] => false
  | n :: ns, h :: hs => n == h && headMatch ns hs

/-- First index at which `needle` occurs in `hay`, starting the count at `i`. -/
def idxOfAux (needle : List Char) : List Char → Nat → Option Nat
  | [], i => if headMatch needle [] then some i else none
  | h :: hs, i =>
      if headMatch needle (h :: hs) then some i else idxOfAux needle hs (i + 1)

/-- JS `indexOf`: first occurrence of `needle` in `hay` (`none` for JS `-1`). -/
def strIndexOf (hay needle : String) : Option Nat :=
  idxOfAux needle.data hay.data 0

/-- JS `includes`. -/
def strContains (hay needle : String) : Bool :=
  (strIndexOf hay needle).isSome

/-- JS `substring(i)`: the suffix starting at character index `i`. -/
def strSubFrom (s : String) (i : Nat) : String := String.mk (s.data.drop i)

/-- JS `substring(0, j)`: the first `j` characters. -/
def strSubTo (s : String) (j : Nat) : String := String.mk (s.data.take j)

/-- Configuration options of the hook relevant to the state machine
(`wakeWord`, `sleepWord` with their source defaults). -/
structure Config where
  wakeWord : String := "hi"
  sleepWord : String := "bye"
deriving DecidableEq, Repr

/-- The hook's observable session state: the `useState` cells plus whether
`recognitionRef.current` is non-null (`recognitionInitialized`). The shadow
flag `isActiveRef` always mirrors `isActive` inside one handler run, so a
single field models both. -/
structure SessionState where
  isListening : Bool := false
  isActive : Bool := false
  transcript : String := ""
  interimTranscript : String := ""
  error : Option String := none
  recognitionInitialized : Bool := false
deriving DecidableEq, Repr

/-- One recognition hypothesis `(text, isFinal)` within an event. -/
structure Hypothesis where
  text : String
  isFinal : Bool
deriving DecidableEq, Repr

/-- Outward callback invocations, in invocation order. -/
inductive Notification where
  | transcriptUpdate (text : String) (isFinal : Bool)
  | wakeDetected
  | sleepDetected
  | errorNotified (msg : String)
deriving DecidableEq, Repr

/-- The handler's first loop, interim side: concatenation of the trimmed
interim hypothesis texts (no separator), as built by `interimText +=
transcriptText`. -/
def collectInterim (hs : List Hypothesis) : String :=
  hs.foldl (fun acc h => if h.isFinal then acc else acc ++ strTrim h.text) ""

/-- The handler's first loop, final side: concatenation of the trimmed final
hypothesis texts, each followed by one space, as built by `finalText +=
transcriptText + ' '`. -/
def collectFinal (hs : List Hypothesis) : String :=
  hs.foldl (fun acc h => if h.isFinal then acc ++ strTrim h.text ++ " " else acc) ""

/-- `finalText.substring(wakeWordIndex + wakeWord.length).trim()` of the wake
branch: the trimmed text after the first (case-insensitive) wake-word
occurrence. -/
def wakeTrailing (cfg : Config) (finalText : String) : String :=
  strTrim (strSubFrom finalText
    ((strIndexOf (strLower finalText) (strLower cfg.wakeWord)).getD 0 + strLen cfg.wakeWord))

/-- `finalText.substring(0, sleepWordIndex).trim()` of the sleep branch: the
trimmed text before the first (case-insensitive) sleep-word occurrence. -/
def sleepLeading (cfg : Config) (finalText : String) : String :=
  strTrim (strSubTo finalText
    ((strIndexOf (strLower finalText) (strLower cfg.sleepWord)).getD 0))

/-- The `if (finalText)` block of `recognition.onresult` (lines 105-146):
wake detection, sleep detection, active append, or discard, each followed by
`setInterimTranscript('')`. Returns the new state and the callbacks fired, in
order. -/
def processFinal (cfg : Config) (s : SessionState) (finalText : String) :
    SessionState × List Notification :=
  if !s.isActive && strContains (strLower finalText) (strLower cfg.wakeWord) then
    if wakeTrailing cfg finalText ≠ "" then
      ({ s with
          isActive := true
          transcript := wakeTrailing cfg finalText ++ " "
          interimTranscript := "" },
        [Notification.wakeDetected,
         Notification.transcriptUpdate (wakeTrailing cfg finalText) true])
    else
      ({ s with isActive := true, transcript := "", interimTranscript := "" },
        [Notification.wakeDetected])
  else if s.isActive && strContains (strLower finalText) (strLower cfg.sleepWord) then
    if sleepLeading cfg finalText ≠ "" then
      ({ s with
          isActive := false
          transcript := s.transcript ++ sleepLeading cfg finalText ++ " "
          interimTranscript := "" },
        [Notification.transcriptUpdate (sleepLeading cfg finalText) true,
         Notification.sleepDetected])
    else
      ({ s with isActive := false, interimTranscript := "" },
        [Notification.sleepDetected])
  else if s.isActive then
    ({ s with transcript := s.transcript ++ finalText, interimTranscript := "" },
      [Notification.transcriptUpdate finalText true])
  else
    ({ s with interimTranscript := "" }, [])

/-- The whole `recognition.onresult` handler on one event: collect the
trimmed interim and final texts, apply the interim preview (with the
observer call when not active), then process the final text. -/
def onresult (cfg : Config) (s : SessionState) (hs : List Hypothesis) :
    SessionState × List Notification :=
  let interimText := collectInterim hs
  let finalText := collectFinal hs
  let s1 := if interimText ≠ "" then { s with interimTranscript := interimText } else s
  let n1 := if interimText ≠ "" ∧ s.isActive = false then
      [Notification.transcriptUpdate interimText false] else []
  if finalText ≠ "" then
    ((processFinal cfg s1 finalText).1, n1 ++ (processFinal cfg s1 finalText).2)
  else (s1, n1)

/-- `recognition.onerror` (lines 149-157): the error is recorded and
forwarded before the `no-speech`/`aborted` early return, which therefore has
no effect. -/
def onerror (s : SessionState) (kind : String) : SessionState × List Notification :=
  let errorMsg := "Speech recognition error: " ++ kind
  ({ s with error := some errorMsg }, [Notification.errorNotified errorMsg])

/-- `stopListening` (lines 199-206): guarded by `recognitionRef.current`. -/
def stopListening (s : SessionState) : SessionState × List Notification :=
  if s.recognitionInitialized then
    ({ s with isListening := false, isActive := false }, [])
  else (s, [])

/-- `resetTranscript` (lines 208-211). -/
def resetTranscript (s : SessionState) : SessionState :=
  { s with transcript := "", interimTranscript := "" }

/-- Processing a list of single-final-hypothesis events in order. -/
def runFinals (cfg : Config) (s : SessionState) (ts : List String) : SessionState :=
  ts.foldl (fun st t => (onresult cfg st [⟨t, true⟩]).1) s

/-- The default configuration `wakeWord="hi"`, `sleepWord="bye"`. -/
def cfgDefault : Config := {}

/-- Initial state after a successful start: listening, WAITING. -/
def startState : SessionState :=
  { isListening := true, recognitionInitialized := true }

/-- Does the string end in exactly one space: last character a space, the
character before it (if any) not a space? -/
def endsWithSingleSpace (s : String) : Bool :=
  match s.data.reverse with
  | [] => false
  | [c] => c == ' '
  | c :: d :: _ => c == ' ' && !(d == ' ')

/-- Number of `WakeDetected` callbacks in a notification list. -/
def countWake (ns : List Notification) : Nat :=
  (ns.filter (fun n => n = Notification.wakeDetected)).length

/-- Number of `SleepDetected` callbacks in a notification list. -/
def countSleep (ns : List Notification) : Nat :=
  (ns.filter (fun n => n = Notification.sleepDetected)).length

/-! ### Helper lemmas about the string model -/

theorem dataAppend (a b : String) : (a ++ b).data = a.data ++ b.data := by
  cases a; cases b; rfl

theorem strAppend_assoc (a b c : String) : a ++ b ++ c = a ++ (b ++ c) := by
  cases a; cases b; cases c
  show String.mk _ = String.mk _
  rw [List.append_assoc]

theorem strAppend_empty (a : String) : a ++ "" = a := by
  cases a
  show String.mk _ = String.mk _
  rw [List.append_nil]

theorem strEmpty_append (a : String) : "" ++ a = a := by
  cases a; rfl

theorem data_ne_nil_of_ne_empty {a : String} (h : a ≠ "") : a.data ≠ [] := by
  intro hd
  apply h
  cases a
  simp only at hd
  rw [hd]

theorem append_space_ne_empty (a : String) : a ++ " " ≠ "" := by
  intro h
  have h2 : (a ++ " ").data = ([] : List Char) := by rw [h]
  rw [dataAppend] at h2
  rcases List.append_eq_nil.mp h2 with ⟨_, h4⟩
  exact absurd h4 (by decide)

theorem getLast_append_space (a : String) : (a ++ " ").data.getLast? = some ' ' := by
  rw [dataAppend]
  have : (" " : String).data = [' '] := rfl
  rw [this, List.getLast?_append_of_ne_nil _ (by decide)]
  rfl

theorem getLast_append_right (a b : String) (h : b ≠ "") :
    (a ++ b).data.getLast? = b.data.getLast? := by
  rw [dataAppend]
  exact List.getLast?_append_of_ne_nil _ (data_ne_nil_of_ne_empty h)

/-! ### Helper lemmas about the event handler -/

theorem collectInterim_single_final (t : String) : collectInterim [⟨t, true⟩] = "" := rfl

theorem collectFinal_single_final (t : String) :
    collectFinal [⟨t, true⟩] = strTrim t ++ " " := by
  show "" ++ (strTrim t ++ " ") = strTrim t ++ " "
  exact strEmpty_append _

theorem processFinal_set_interim (cfg : Config) (f x : String) (s : SessionState) :
    processFinal cfg { s with interimTranscript := x } f = processFinal cfg s f := by
  unfold processFinal
  split_ifs <;> rfl

theorem processFinal_interim_empty (cfg : Config) (s : SessionState) (f : String) :
    (processFinal cfg s f).1.interimTranscript = "" := by
  unfold processFinal
  split_ifs <;> rfl

/-- The handler on an event with non-empty final text, decomposed into the
interim notification followed by the final block on the original state. -/
theorem onresult_final (cfg : Config) (s : SessionState) (hs : List Hypothesis)
    (hf : collectFinal hs ≠ "") :
    onresult cfg s hs =
      ((processFinal cfg s (collectFinal hs)).1,
        (if collectInterim hs ≠ "" ∧ s.isActive = false then
          [Notification.transcriptUpdate (collectInterim hs) false] else [])
          ++ (processFinal cfg s (collectFinal hs)).2) := by
  unfold onresult
  by_cases hi : collectInterim hs ≠ "" <;>
    simp only [hi, if_pos, if_neg, if_true, if_false, hf, processFinal_set_interim] <;>
    simp [hi, hf, processFinal_set_interim]

/-- The handler on an event with empty final text: only the interim preview
is touched. -/
theorem onresult_no_final (cfg : Config) (s : SessionState) (hs : List Hypothesis)
    (hf : collectFinal hs = "") :
    onresult cfg s hs =
      (if collectInterim hs ≠ "" then { s with interimTranscript := collectInterim hs } else s,
        if collectInterim hs ≠ "" ∧ s.isActive = false then
          [Notification.transcriptUpdate (collectInterim hs) false] else []) := by
  unfold onresult
  simp [hf]

/-- The final block in WAITING when the wake word is present. -/
theorem processFinal_wake (cfg : Config) (s : SessionState) (f : String)
    (ha : s.isActive = false)
    (hw : strContains (strLower f) (strLower cfg.wakeWord) = true) :
    processFinal cfg s f =
      if wakeTrailing cfg f ≠ "" then
        ({ s with
            isActive := true
            transcript := wakeTrailing cfg f ++ " "
            interimTranscript := "" },
          [Notification.wakeDetected,
           Notification.transcriptUpdate (wakeTrailing cfg f) true])
      else
        ({ s with isActive := true, transcript := "", interimTranscript := "" },
          [Notification.wakeDetected]) := by
  unfold processFinal
  rw [ha, hw]
  simp

/-- The final block in WAITING when the wake word is absent: discard. -/
theorem processFinal_waiting_discard (cfg : Config) (s : SessionState) (f : String)
    (ha : s.isActive = false)
    (hw : strContains (strLower f) (strLower cfg.wakeWord) = false) :
    processFinal cfg s f = ({ s with interimTranscript := "" }, []) := by
  unfold processFinal
  rw [ha, hw]
  simp

/-- The final block while ACTIVE: sleep detection or plain append. -/
theorem processFinal_active (cfg : Config) (s : SessionState) (f : String)
    (ha : s.isActive = true) :
    processFinal cfg s f =
      if strContains (strLower f) (strLower cfg.sleepWord) then
        if sleepLeading cfg f ≠ "" then
          ({ s with
              isActive := false
              transcript := s.transcript ++ sleepLeading cfg f ++ " "
              interimTranscript := "" },
            [Notification.transcriptUpdate (sleepLeading cfg f) true,
             Notification.sleepDetected])
        else
          ({ s with isActive := false, interimTranscript := "" },
            [Notification.sleepDetected])
      else
        ({ s with transcript := s.transcript ++ f, interimTranscript := "" },
          [Notification.transcriptUpdate f true]) := by
  unfold processFinal
  rw [ha]
  simp

/-- Each committed final segment ends the accumulated final text with a
space, so the whole collected final text, when non-empty, ends in one. -/
theorem collectFinal_getLast (hs : List Hypothesis) :
    collectFinal hs = "" ∨ (collectFinal hs).data.getLast? = some ' ' := by
  have key : ∀ (l : List Hypothesis) (acc : String),
      (acc = "" ∨ acc.data.getLast? = some ' ') →
      (l.foldl (fun acc h => if h.isFinal then acc ++ strTrim h.text ++ " " else acc) acc = "" ∨
       (l.foldl (fun acc h =>
          if h.isFinal then acc ++ strTrim h.text ++ " " else acc) acc).data.getLast?
         = some ' ') := by
    intro l
    induction l with
    | nil => intro acc hacc; exact hacc
    | cons x xs ih =>
        intro acc hacc
        apply ih
        show (if x.isFinal = true then acc ++ strTrim x.text ++ " " else acc) = "" ∨
          (if x.isFinal = true then acc ++ strTrim x.text ++ " " else acc).data.getLast?
            = some ' '
        by_cases hx : x.isFinal = true
        · rw [if_pos hx]
          exact Or.inr (getLast_append_space _)
        · rw [if_neg hx]
          exact hacc
  exact key hs "" (Or.inl rfl)

/-- The final block preserves "the transcript, when non-empty, ends in a
space", given that the incoming final text ends in a space when non-empty. -/
theorem processFinal_getLast (cfg : Config) (s : SessionState) (f : String)
    (hsTr : s.transcript ≠ "" → s.transcript.data.getLast? = some ' ')
    (hfL : f ≠ "" → f.data.getLast? = some ' ') :
    (processFinal cfg s f).1.transcript ≠ "" →
    (processFinal cfg s f).1.transcript.data.getLast? = some ' ' := by
  unfold processFinal
  split_ifs with h1 h2 h3 h4 h5 <;> intro hne
  · exact getLast_append_space _
  · exact absurd rfl hne
  · exact getLast_append_space _
  · exact hsTr hne
  · by_cases hf2 : f = ""
    · rw [hf2, strAppend_empty] at hne ⊢
      exact hsTr hne
    · rw [getLast_append_right _ _ hf2]
      exact hfL hf2
  · exact hsTr hne

/-! ### Claim theorems -/

/-- C1: with the default configuration (`wakeWord="hi"`, `sleepWord="bye"`),
processing the final hypothesis "hi how are you" in WAITING activates
transcription, sets the transcript to "how are you " and fires `WakeDetected`
exactly once (and `SleepDetected` not at all); processing "fine bye see you"
from the resulting state appends only "fine ", yields "how are you fine ",
deactivates, and fires `SleepDetected` exactly once (and `WakeDetected` not
at all). -/
theorem C1_default_wake_then_sleep_scenario :
    (onresult cfgDefault startState [⟨"hi how are you", true⟩]).1.isActive = true ∧
    (onresult cfgDefault startState [⟨"hi how are you", true⟩]).1.transcript = "how are you " ∧
    countWake (onresult cfgDefault startState [⟨"hi how are you", true⟩]).2 = 1 ∧
    countSleep (onresult cfgDefault startState [⟨"hi how are you", true⟩]).2 = 0 ∧
    (onresult cfgDefault (onresult cfgDefault startState [⟨"hi how are you", true⟩]).1
      [⟨"fine bye see you", true⟩]).1.transcript = "how are you fine " ∧
    (onresult cfgDefault (onresult cfgDefault startState [⟨"hi how are you", true⟩]).1
      [⟨"fine bye see you", true⟩]).1.isActive = false ∧
    countSleep (onresult cfgDefault (onresult cfgDefault startState [⟨"hi how are you", true⟩]).1
      [⟨"fine bye see you", true⟩]).2 = 1 ∧
    countWake (onresult cfgDefault (onresult cfgDefault startState [⟨"hi how are you", true⟩]).1
      [⟨"fine bye see you", true⟩]).2 = 0 := by
  decide

/-- C2 counterexample: in WAITING, the final hypothesis "hello world" (no
wake word) produces no `onTranscript("hello world", true)` invocation — the
handler's discard branch only logs, so the claimed observer call never
happens (in fact no callback fires at all). -/
theorem C2_counterexample_no_final_callback :
    Notification.transcriptUpdate "hello world" true
      ∉ (onresult cfgDefault startState [⟨"hello world", true⟩]).2 ∧
    (onresult cfgDefault startState [⟨"hello world", true⟩]).2 = [] := by
  decide

/-- C2 amended: for every final hypothesis processed in WAITING whose
processed text does not contain the wake word, the text is not appended to
the transcript and `isActive` stays false, and no observer callback at all is
invoked (in particular `onTranscript(text, true)` is NOT invoked; the
hypothesis is only logged). -/
theorem C2_waiting_final_discarded_silently (cfg : Config) (s : SessionState) (t : String)
    (ha : s.isActive = false)
    (hw : strContains (strLower (strTrim t ++ " ")) (strLower cfg.wakeWord) = false) :
    (onresult cfg s [⟨t, true⟩]).1.transcript = s.transcript ∧
    (onresult cfg s [⟨t, true⟩]).1.isActive = false ∧
    (onresult cfg s [⟨t, true⟩]).2 = [] := by
  have hf : collectFinal [⟨t, true⟩] ≠ "" := by
    rw [collectFinal_single_final]
    exact append_space_ne_empty _
  have hi : collectInterim [⟨t, true⟩] = "" := rfl
  rw [onresult_final cfg s _ hf, collectFinal_single_final,
    processFinal_waiting_discard cfg s _ ha hw]
  refine ⟨rfl, ha, ?_⟩
  simp [hi]

/-- C2 witness: the amended statement at the concrete Scenario C input. -/
theorem C2_amended_witness :
    (onresult cfgDefault startState [⟨"hello world", true⟩]).1.transcript
      = startState.transcript ∧
    (onresult cfgDefault startState [⟨"hello world", true⟩]).1.isActive = false ∧
    (onresult cfgDefault startState [⟨"hello world", true⟩]).2 = [] :=
  C2_waiting_final_discarded_silently cfgDefault startState "hello world" rfl (by decide)

/-- C3: the code records and forwards EVERY platform error, including the
kinds `no-speech` and `aborted` that the specification says are suppressed:
the early-return check sits after the side effects and is dead code. This
theorem evaluates the handler at the failing inputs. -/
theorem C3_suppressed_kinds_still_forwarded :
    (onerror startState "no-speech").1.error
      = some "Speech recognition error: no-speech" ∧
    (onerror startState "no-speech").2
      = [Notification.errorNotified "Speech recognition error: no-speech"] ∧
    (onerror startState "aborted").1.error
      = some "Speech recognition error: aborted" ∧
    (onerror startState "aborted").2
      = [Notification.errorNotified "Speech recognition error: aborted"] :=
  ⟨rfl, rfl, rfl, rfl⟩

/-- C7 counterexample: in a state where the recognizer was never initialized
but the listening/active flags are set, `stopListening` leaves both flags
unchanged — it is not unconditional, being guarded by
`recognitionRef.current`. -/
theorem C7_counterexample_uninitialized_noop :
    ¬ ((stopListening
          { isListening := true, isActive := true, recognitionInitialized := false }).1.isListening
        = false ∧
       (stopListening
          { isListening := true, isActive := true, recognitionInitialized := false }).1.isActive
        = false) := by
  decide

/-- C7 amended: `stopListening` never fires any callback (in particular never
`SleepDetected`, even from ACTIVE); whenever the recognizer has been
initialized it sets `isListening := false` and `isActive := false` in every
state; when the recognizer was never initialized (e.g. an unsupported host)
it is a no-op. -/
theorem C7_stop_forces_waiting_when_initialized (s : SessionState) :
    (stopListening s).2 = [] ∧
    (s.recognitionInitialized = true →
      (stopListening s).1.isListening = false ∧ (stopListening s).1.isActive = false) ∧
    (s.recognitionInitialized = false → (stopListening s).1 = s) := by
  unfold stopListening
  rcases Bool.eq_false_or_eq_true s.recognitionInitialized with h | h <;> simp [h]

/-- C7 witness: the amended statement at a concrete ACTIVE listening state
with an initialized recognizer. -/
theorem C7_amended_witness :
    (stopListening
        { isListening := true, isActive := true, recognitionInitialized := true }).1.isListening
      = false ∧
    (stopListening
        { isListening := true, isActive := true, recognitionInitialized := true }).1.isActive
      = false :=
  (C7_stop_forces_waiting_when_initialized _).2.1 rfl

/-- C4 counterexample: for the event carrying interim "hel" and final
"hi there" in WAITING, the interim preview is applied and emitted BEFORE the
final hypotheses are processed (the first callback is the interim update,
before `WakeDetected`), and after the event completes `interimTranscript` is
empty — not "hel" as the claim states. -/
theorem C4_counterexample_interim_first_then_cleared :
    (onresult cfgDefault startState [⟨"hel", false⟩, ⟨"hi there", true⟩]).1.interimTranscript
      = "" ∧
    (onresult cfgDefault startState [⟨"hel", false⟩, ⟨"hi there", true⟩]).1.interimTranscript
      ≠ "hel" ∧
    (onresult cfgDefault startState [⟨"hel", false⟩, ⟨"hi there", true⟩]).2
      = [Notification.transcriptUpdate "hel" false,
         Notification.wakeDetected,
         Notification.transcriptUpdate "there" true] := by
  decide

/-- C4 amended: for every recognition event containing both interim and
final hypotheses, in every state, the interim text is applied to the preview
BEFORE the final hypotheses are processed — observably, when WAITING, the
interim observer callback is emitted before any final-processing callback —
and `interimTranscript` is cleared at the end of processing the final text;
in particular, after such an event completes, `interimTranscript` is empty
rather than holding the event's interim text. -/
theorem C4_interim_first_and_cleared (cfg : Config) (s : SessionState)
    (hs : List Hypothesis) (hf : collectFinal hs ≠ "")
    (hi : collectInterim hs ≠ "") :
    (onresult cfg s hs).1.interimTranscript = "" ∧
    (s.isActive = false →
      ∃ rest, (onresult cfg s hs).2
        = Notification.transcriptUpdate (collectInterim hs) false :: rest) := by
  rw [onresult_final cfg s hs hf]
  constructor
  · exact processFinal_interim_empty cfg s _
  · intro ha
    refine ⟨(processFinal cfg s (collectFinal hs)).2, ?_⟩
    simp [hi, ha]

/-- C4 witness: the amended statement at concrete mixed events, one received
while ACTIVE (preview cleared at event end) and one received while WAITING
(interim callback emitted first, before `WakeDetected`). -/
theorem C4_amended_witness :
    (onresult cfgDefault { startState with isActive := true }
        [⟨"hel", false⟩, ⟨"hello", true⟩]).1.interimTranscript = "" ∧
    (∃ rest, (onresult cfgDefault startState [⟨"hel", false⟩, ⟨"hi there", true⟩]).2
        = Notification.transcriptUpdate
            (collectInterim [⟨"hel", false⟩, ⟨"hi there", true⟩]) false :: rest) :=
  ⟨(C4_interim_first_and_cleared cfgDefault { startState with isActive := true }
      [⟨"hel", false⟩, ⟨"hello", true⟩] (by decide) (by decide)).1,
   (C4_interim_first_and_cleared cfgDefault startState
      [⟨"hel", false⟩, ⟨"hi there", true⟩] (by decide) (by decide)).2 rfl⟩

/-- C5: for every sequence of final hypotheses processed while WAITING none
of whose processed texts contains the wake word (case-insensitively — the
sleep word may well occur), the transcript remains unchanged and `isActive`
remains false throughout. -/
theorem C5_waiting_no_wake_invariant (cfg : Config) (ts : List String) :
    ∀ s : SessionState, s.isActive = false →
      (∀ t ∈ ts, strContains (strLower (strTrim t ++ " ")) (strLower cfg.wakeWord) = false) →
      (runFinals cfg s ts).transcript = s.transcript ∧
      (runFinals cfg s ts).isActive = false := by
  induction ts with
  | nil =>
      intro s ha _
      exact ⟨rfl, ha⟩
  | cons t ts ih =>
      intro s ha hall
      have hw := hall t (List.mem_cons_self t ts)
      have hf : collectFinal [⟨t, true⟩] ≠ "" := by
        rw [collectFinal_single_final]
        exact append_space_ne_empty _
      have hstep : (onresult cfg s [⟨t, true⟩]).1 = { s with interimTranscript := "" } := by
        rw [onresult_final cfg s _ hf, collectFinal_single_final,
          processFinal_waiting_discard cfg s _ ha hw]
      have hrun : runFinals cfg s (t :: ts)
          = runFinals cfg (onresult cfg s [⟨t, true⟩]).1 ts := rfl
      rw [hrun, hstep]
      exact ih { s with interimTranscript := "" } ha
        (fun u hu => hall u (List.mem_cons_of_mem t hu))

/-- C5 witness: two WAITING finals, the second containing the sleep word but
no wake word, leave the transcript and `isActive` untouched. -/
theorem C5_witness :
    (runFinals cfgDefault startState ["hello world", "good bye now"]).transcript
      = startState.transcript ∧
    (runFinals cfgDefault startState ["hello world", "good bye now"]).isActive = false :=
  C5_waiting_no_wake_invariant cfgDefault ["hello world", "good bye now"]
    startState rfl (by decide)

/-- C6: a wake transition resets the transcript (the post-event transcript is
independent of the transcript held before, and the machine becomes ACTIVE);
and while ACTIVE, every event — sleep transitions and repeated wake words
included — only ever appends to the transcript, never resets it. -/
theorem C6_wake_resets_active_appends (cfg : Config) (s : SessionState)
    (hs : List Hypothesis) :
    (s.isActive = false → collectFinal hs ≠ "" →
      strContains (strLower (collectFinal hs)) (strLower cfg.wakeWord) = true →
      (onresult cfg s hs).1.transcript
        = (onresult cfg { s with transcript := "" } hs).1.transcript ∧
      (onresult cfg s hs).1.isActive = true) ∧
    (s.isActive = true →
      ∃ suf, (onresult cfg s hs).1.transcript = s.transcript ++ suf) := by
  constructor
  · intro ha hf hw
    rw [onresult_final cfg s hs hf, onresult_final cfg { s with transcript := "" } hs hf,
      processFinal_wake cfg s _ ha hw,
      processFinal_wake cfg { s with transcript := "" } (collectFinal hs) ha hw]
    by_cases hwt : wakeTrailing cfg (collectFinal hs) ≠ "" <;> simp [hwt]
  · intro ha
    by_cases hf : collectFinal hs = ""
    · rw [onresult_no_final cfg s hs hf]
      refine ⟨"", ?_⟩
      rw [strAppend_empty]
      by_cases hi : collectInterim hs ≠ "" <;> simp [hi]
    · rw [onresult_final cfg s hs hf, processFinal_active cfg s _ ha]
      by_cases hsl : strContains (strLower (collectFinal hs)) (strLower cfg.sleepWord) = true
      · by_cases hle : sleepLeading cfg (collectFinal hs) ≠ ""
        · refine ⟨sleepLeading cfg (collectFinal hs) ++ " ", ?_⟩
          simp [hsl, hle, strAppend_assoc]
        · refine ⟨"", ?_⟩
          simp [hsl, hle, strAppend_empty]
      · refine ⟨collectFinal hs, ?_⟩
        simp [hsl]

/-- C6 witness: the wake transition from a state holding stale transcript
text yields the same transcript as from a cleared one and activates; and a
sleep event while ACTIVE extends the existing transcript. -/
theorem C6_witness :
    ((onresult cfgDefault { startState with transcript := "stale " }
        [⟨"hi again", true⟩]).1.transcript
      = (onresult cfgDefault { startState with transcript := "" }
          [⟨"hi again", true⟩]).1.transcript ∧
     (onresult cfgDefault { startState with transcript := "stale " }
        [⟨"hi again", true⟩]).1.isActive = true) ∧
    (∃ suf, (onresult cfgDefault
        { startState with isActive := true, transcript := "how are you " }
        [⟨"fine bye see you", true⟩]).1.transcript = "how are you " ++ suf) :=
  ⟨(C6_wake_resets_active_appends cfgDefault
      { startState with transcript := "stale " } [⟨"hi again", true⟩]).1
      rfl (by decide) (by decide),
   (C6_wake_resets_active_appends cfgDefault
      { startState with isActive := true, transcript := "how are you " }
      [⟨"fine bye see you", true⟩]).2 rfl⟩

/-- C8: `resetTranscript` clears `transcript` and `interimTranscript` and
leaves `isActive`, `isListening` and `error` unchanged, in every state. -/
theorem C8_resetTranscript_frame (s : SessionState) :
    (resetTranscript s).transcript = "" ∧
    (resetTranscript s).interimTranscript = "" ∧
    (resetTranscript s).isActive = s.isActive ∧
    (resetTranscript s).isListening = s.isListening ∧
    (resetTranscript s).error = s.error :=
  ⟨rfl, rfl, rfl, rfl, rfl⟩

/-- C9 counterexample: from the ACTIVE state with transcript "a " (which does
end in a single space), a final hypothesis consisting of whitespace only
trims to the empty segment yet still contributes its separator space: the
transcript becomes "a  ", non-empty but ending in TWO spaces, so the claimed
single-trailing-space invariant is not preserved. -/
theorem C9_counterexample_double_trailing_space :
    endsWithSingleSpace
        ({ startState with isActive := true, transcript := "a " } : SessionState).transcript
      = true ∧
    (onresult cfgDefault { startState with isActive := true, transcript := "a " }
        [⟨" ", true⟩]).1.transcript = "a  " ∧
    (onresult cfgDefault { startState with isActive := true, transcript := "a " }
        [⟨" ", true⟩]).1.transcript ≠ "" ∧
    endsWithSingleSpace
        (onresult cfgDefault { startState with isActive := true, transcript := "a " }
          [⟨" ", true⟩]).1.transcript = false := by
  decide

/-- C9 amended: whenever the transcript is non-empty its LAST character is a
space (every committed segment is appended with a trailing space separator);
this weaker invariant is preserved by every event-processing step and by
`resetTranscript`. Exactly one trailing space is not guaranteed: a final
hypothesis that trims to the empty string still contributes a bare space. -/
theorem C9_transcript_ends_with_space (cfg : Config) (s : SessionState)
    (hs : List Hypothesis)
    (h : s.transcript ≠ "" → s.transcript.data.getLast? = some ' ') :
    ((onresult cfg s hs).1.transcript ≠ "" →
      (onresult cfg s hs).1.transcript.data.getLast? = some ' ') ∧
    ((resetTranscript s).transcript ≠ "" →
      (resetTranscript s).transcript.data.getLast? = some ' ') := by
  constructor
  · by_cases hf : collectFinal hs = ""
    · rw [onresult_no_final cfg s hs hf]
      by_cases hi : collectInterim hs ≠ ""
      · rw [if_pos hi]
        exact h
      · rw [if_neg hi]
        exact h
    · rw [onresult_final cfg s hs hf]
      refine processFinal_getLast cfg s _ h ?_
      intro _
      rcases collectFinal_getLast hs with hc | hc
      · exact absurd hc hf
      · exact hc
  · intro h'
    exact absurd rfl h'

/-- C9 witness: the amended invariant applied after an ACTIVE append step. -/
theorem C9_amended_witness :
    (onresult cfgDefault { startState with isActive := true, transcript := "how are you " }
        [⟨"fine then", true⟩]).1.transcript.data.getLast? = some ' ' :=
  (C9_transcript_ends_with_space cfgDefault
      { startState with isActive := true, transcript := "how are you " }
      [⟨"fine then", true⟩] (by decide)).1 (by decide)

/-- C10: if the wake word fires with no non-whitespace text trailing it in
the final segment, the event ends with an empty transcript and no final
`onTranscript` callback is invoked; symmetrically, if the sleep word fires
with no non-whitespace text preceding it, the transcript is unchanged and no
final `onTranscript` callback is invoked. -/
theorem C10_empty_segment_transitions (cfg : Config) (s : SessionState)
    (hs : List Hypothesis) :
    (s.isActive = false → collectFinal hs ≠ "" →
      strContains (strLower (collectFinal hs)) (strLower cfg.wakeWord) = true →
      wakeTrailing cfg (collectFinal hs) = "" →
      (onresult cfg s hs).1.transcript = "" ∧
      ∀ txt, Notification.transcriptUpdate txt true ∉ (onresult cfg s hs).2) ∧
    (s.isActive = true →
      strContains (strLower (collectFinal hs)) (strLower cfg.sleepWord) = true →
      sleepLeading cfg (collectFinal hs) = "" →
      (onresult cfg s hs).1.transcript = s.transcript ∧
      ∀ txt, Notification.transcriptUpdate txt true ∉ (onresult cfg s hs).2) := by
  constructor
  · intro ha hf hw hwt
    rw [onresult_final cfg s hs hf, processFinal_wake cfg s _ ha hw,
      if_neg (not_not_intro hwt)]
    refine ⟨rfl, ?_⟩
    intro txt
    by_cases hcond : collectInterim hs ≠ "" ∧ s.isActive = false <;> simp [hcond]
  · intro ha hsl hle
    by_cases hf : collectFinal hs = ""
    · rw [onresult_no_final cfg s hs hf]
      constructor
      · by_cases hi : collectInterim hs ≠ ""
        · rw [if_pos hi]
        · rw [if_neg hi]
      · intro txt
        by_cases hcond : collectInterim hs ≠ "" ∧ s.isActive = false <;> simp [hcond]
    · rw [onresult_final cfg s hs hf, processFinal_active cfg s _ ha, if_pos hsl,
        if_neg (not_not_intro hle)]
      refine ⟨rfl, ?_⟩
      intro txt
      by_cases hcond : collectInterim hs ≠ "" ∧ s.isActive = false <;> simp [hcond]

/-- C10 witness: a bare "hi" wake leaves the transcript empty with no final
callback; a bare "bye" sleep leaves the transcript unchanged. -/
theorem C10_witness :
    ((onresult cfgDefault startState [⟨"hi", true⟩]).1.transcript = "" ∧
      Notification.transcriptUpdate "hi" true
        ∉ (onresult cfgDefault startState [⟨"hi", true⟩]).2) ∧
    ((onresult cfgDefault { startState with isActive := true, transcript := "kept " }
        [⟨"bye", true⟩]).1.transcript = "kept " ∧
      Notification.transcriptUpdate "bye" true
        ∉ (onresult cfgDefault { startState with isActive := true, transcript := "kept " }
            [⟨"bye", true⟩]).2) :=
  ⟨⟨((C10_empty_segment_transitions cfgDefault startState [⟨"hi", true⟩]).1
        rfl (by decide) (by decide) (by decide)).1,
    ((C10_empty_segment_transitions cfgDefault startState [⟨"hi", true⟩]).1
        rfl (by decide) (by decide) (by decide)).2 "hi"⟩,
   ⟨((C10_empty_segment_transitions cfgDefault
        { startState with isActive := true, transcript := "kept " } [⟨"bye", true⟩]).2
        rfl (by decide) (by decide)).1,
    ((C10_empty_segment_transitions cfgDefault
        { startState with isActive := true, transcript := "kept " } [⟨"bye", true⟩]).2
        rfl (by decide) (by decide)).2 "bye"⟩⟩

end SpeechToText
